import Mathlib

/-!
# Verification of the AI-trader signal-scoring pipeline

Shallow embedding of the scoring logic of the `ai-trading-analysis` edge
function (`analyzeMarket`, `calculateTechnicalScore`,
`calculateTechnicalIndicators`, `calculateRSI`, `analyzeSentiment`,
`calculateVolatility`, `generateMockMarketData`).  JavaScript numbers are
modelled as rationals (`ℚ`); the `Number(x.toFixed(2))` display rounding on
the emitted signal fields is a floating-point formatting step and is not
modelled, except in the mock-data generator where the rounded value is fed
back into the analysis (`toFixed2` below).  `Math.sqrt` (used only for the
volatility estimate) is irrational in general, so `analyzeMarket` takes the
volatility value as an explicit parameter and the variance under the square
root is embedded separately (`calculateVolatilityVariance`).
-/

/-- One OHLCV bar, mirroring the `MarketData` interface
(fields `date, close, volume, high, low, open`). -/
structure MarketData where
  date : String
  close : ℚ
  volume : ℚ
  high : ℚ
  low : ℚ
  open_ : ℚ
deriving Repr, DecidableEq, Inhabited

/-- Default bar used only to totalise the JS array indexing
`marketData[i]`; every access in the source is guarded so the default is
never read. -/
def dummyBar : MarketData := { date := "", close := 0, volume := 0, high := 0, low := 0, open_ := 0 }

/-- The `'BUY' | 'SELL' | 'HOLD'` union type of the `AISignal` interface. -/
inductive TradeAction where
  | BUY
  | SELL
  | HOLD
deriving Repr, DecidableEq

/-- The sub-object built inline in `analyzeMarket`
(`{ overall_sentiment, confidence, sources_analyzed }`). -/
structure SentimentAnalysis where
  overall_sentiment : String
  confidence : ℚ
  sources_analyzed : ℕ
deriving Repr, DecidableEq

/-- The object returned by `calculateTechnicalIndicators`
(`{ rsi, sma_20, sma_50, macd, volume_trend }`). -/
structure TechnicalIndicators where
  rsi : ℚ
  sma_20 : ℚ
  sma_50 : ℚ
  macd : ℚ
  volume_trend : String
deriving Repr, DecidableEq

/-- The numeric and categorical fields of the `AISignal` interface.
`timestamp` (wall clock) and `rationale` (display string built with
`toFixed` formatting) are not modelled. -/
structure AISignal where
  symbol : String
  action : TradeAction
  confidence : ℚ
  price_target : ℚ
  stop_loss : ℚ
  technical_indicators : TechnicalIndicators
  sentiment_analysis : SentimentAnalysis
deriving Repr, DecidableEq

/-- The fields of the strategy record read by `analyzeMarket`. -/
structure Strategy where
  symbols : List String
  risk_level : String
  stop_loss_percentage : ℚ
deriving Repr, DecidableEq

/-- `calculateTechnicalScore`: trend/momentum heuristic.  JS
`marketData.slice(-20)` keeps the last `min 20 n` elements, embedded as
`drop (n - 20)` with truncated subtraction. -/
def calculateTechnicalScore (marketData : List MarketData) : ℚ :=
  if marketData.length < 2 then 1/2
  else
    let latestClose := (marketData.getD (marketData.length - 1) dummyBar).close
    let previousClose := (marketData.getD (marketData.length - 2) dummyBar).close
    let priceChange := (latestClose - previousClose) / previousClose
    let recentPrices := (marketData.drop (marketData.length - 20)).map (·.close)
    let sma := recentPrices.sum / (recentPrices.length : ℚ)
    let trendScore : ℚ := if latestClose > sma then 3/5 else 2/5
    let momentumScore : ℚ := if priceChange > 0 then 3/5 else 2/5
    (trendScore + momentumScore) / 2

/-- `calculateRSI`: the loop `for (i = n - period; i < n)` reads the
consecutive differences of the last `period + 1` prices, embedded as the
window `drop (n - (period + 1))` zipped with its own tail.  A change of
exactly `0` falls into the loss branch (adding `0`), as in the source
`if (change > 0) ... else losses -= change`. -/
def calculateRSI (prices : List ℚ) (period : ℕ) : ℚ :=
  if prices.length < period + 1 then 50
  else
    let window := prices.drop (prices.length - (period + 1))
    let changes := (window.zip window.tail).map (fun p => p.2 - p.1)
    let gains := (changes.filter (fun c => 0 < c)).sum
    let losses := ((changes.filter (fun c => ¬ 0 < c)).map (fun c => -c)).sum
    let avgGain := gains / (period : ℚ)
    let avgLoss := losses / (period : ℚ)
    if avgLoss = 0 then 100
    else
      let rs := avgGain / avgLoss
      100 - (100 / (1 + rs))

/-- The fallback moving-average value
`marketData[marketData.length - 1]?.close || 50000`: JS `||` replaces both
`undefined` (empty array) and the falsy close `0` by `50000`. -/
def lastCloseOr50000 (marketData : List MarketData) : ℚ :=
  match marketData.getLast? with
  | none => 50000
  | some bar => if bar.close = 0 then 50000 else bar.close

/-- `calculateTechnicalIndicators`.  Note that `sma20` and `avgVolume`
divide by the constant `20` (not by the number of elements actually
present) while `sma50` divides by `Math.min(50, closes.length)`. -/
def calculateTechnicalIndicators (marketData : List MarketData) : TechnicalIndicators :=
  if marketData.length < 14 then
    { rsi := 50
      sma_20 := lastCloseOr50000 marketData
      sma_50 := lastCloseOr50000 marketData
      macd := 0
      volume_trend := "neutral" }
  else
    let closes := marketData.map (·.close)
    let volumes := marketData.map (·.volume)
    let rsi := calculateRSI closes 14
    let sma20 := (closes.drop (closes.length - 20)).sum / 20
    let sma50 := (closes.drop (closes.length - 50)).sum / ((min 50 closes.length : ℕ) : ℚ)
    let avgVolume := (volumes.drop (volumes.length - 20)).sum / 20
    let latestVolume := volumes.getD (volumes.length - 1) 0
    let volumeTrend := if latestVolume > avgVolume then "increasing" else "decreasing"
    { rsi := rsi
      sma_20 := sma20
      sma_50 := sma50
      macd := (sma20 - sma50) / sma50 * 100
      volume_trend := volumeTrend }

/-- JS `String.prototype.includes`: `needle` occurs contiguously inside
`hay`. -/
def listContainsSub (hay needle : List Char) : Bool :=
  (List.range (hay.length + 1)).any (fun i => needle.isPrefixOf (hay.drop i))

/-- `news.toLowerCase().includes(word)` for an ASCII keyword list. -/
def strContains (news word : String) : Bool :=
  listContainsSub (news.toList.map Char.toLower) word.toList

/-- The `positiveWords` list of `analyzeSentiment`. -/
def positiveWords : List String :=
  ["strong", "bullish", "increase", "growth", "positive", "gains", "rally", "surge", "adoption"]

/-- The `negativeWords` list of `analyzeSentiment`. -/
def negativeWords : List String :=
  ["weak", "bearish", "decrease", "decline", "negative", "losses", "crash", "drop", "fear"]

/-- The nested `forEach` counting of `analyzeSentiment`: each
(snippet, word) pair contributes `1` when the word occurs as a substring
of the lower-cased snippet. -/
def countMatches (newsData : List String) (words : List String) : ℕ :=
  (newsData.map (fun news => (words.filter (fun w => strContains news w)).length)).sum

/-- `analyzeSentiment`. -/
def analyzeSentiment (newsData : List String) : ℚ :=
  if newsData.length = 0 then 1/2
  else
    let positiveCount := countMatches newsData positiveWords
    let negativeCount := countMatches newsData negativeWords
    let total := positiveCount + negativeCount
    if total = 0 then 1/2
    else (positiveCount : ℚ) / (total : ℚ)

/-- The `combinedScore` expression of `analyzeMarket`:
`(technicalScore * 0.6) + (sentimentScore * 0.4)`. -/
def combinedScore (technicalScore sentimentScore : ℚ) : ℚ :=
  technicalScore * (3/5) + sentimentScore * (2/5)

/-- The action-selection `if` chain of `analyzeMarket` with the hard-coded
`threshold = 0.6`. -/
def selectAction (combined : ℚ) : TradeAction :=
  if combined > 3/5 then TradeAction.BUY
  else if combined < 1 - 3/5 then TradeAction.SELL
  else TradeAction.HOLD

/-- `latestPrice`: last close when bars exist, otherwise
`50000 + Math.random() * 5000`; the random draw is passed in as
`randPrice ∈ [0, 5000)`. -/
def latestPrice (marketData : List MarketData) (randPrice : ℚ) : ℚ :=
  if 0 < marketData.length then (marketData.getD (marketData.length - 1) dummyBar).close
  else 50000 + randPrice

/-- The pure part of `analyzeMarket` (the strategy lookup is the external
store's concern).  `volatility` stands for
`calculateVolatility(marketData)`, whose final `Math.sqrt` is irrational
in general; the variance under the root is `calculateVolatilityVariance`
below. -/
def analyzeMarket (strategy : Strategy) (marketData : List MarketData)
    (newsData : List String) (volatility randPrice : ℚ) : AISignal :=
  let symbol := match strategy.symbols with
    | [] => "BTC/USDT"
    | s :: _ => s
  let lp := latestPrice marketData randPrice
  let technicalScore := calculateTechnicalScore marketData
  let sentimentScore := analyzeSentiment newsData
  let combined := combinedScore technicalScore sentimentScore
  let action := selectAction combined
  let confidence := min (19/20) (|combined - 1/2| * 2)
  let priceTarget :=
    if action = TradeAction.BUY then lp * (1 + volatility * 2)
    else if action = TradeAction.SELL then lp * (1 - volatility * 2)
    else lp
  let stopLoss :=
    if action = TradeAction.BUY then lp * (1 - strategy.stop_loss_percentage / 100)
    else if action = TradeAction.SELL then lp * (1 + strategy.stop_loss_percentage / 100)
    else lp
  let technicalIndicators := calculateTechnicalIndicators marketData
  let sentimentAnalysis : SentimentAnalysis :=
    { overall_sentiment :=
        if combined > 3/5 then "positive"
        else if combined < 2/5 then "negative"
        else "neutral"
      confidence := sentimentScore
      sources_analyzed := newsData.length }
  { symbol := symbol
    action := action
    confidence := confidence
    price_target := priceTarget
    stop_loss := stopLoss
    technical_indicators := technicalIndicators
    sentiment_analysis := sentimentAnalysis }

/-- The per-bar returns `(close[i] - close[i-1]) / close[i-1]` of
`calculateVolatility`. -/
def volatilityReturns (marketData : List MarketData) : List ℚ :=
  ((marketData.zip marketData.tail).map (fun p => (p.2.close - p.1.close) / p.1.close))

/-- The population variance computed inside `calculateVolatility`; the
source returns `Math.sqrt` of this value (and the default volatility
`0.02` for fewer than two bars corresponds to variance `1/2500`). -/
def calculateVolatilityVariance (marketData : List MarketData) : ℚ :=
  if marketData.length < 2 then 1/2500
  else
    let returns := volatilityReturns marketData
    let mean := returns.sum / (returns.length : ℚ)
    ((returns.map (fun r => (r - mean) ^ 2)).sum) / (returns.length : ℚ)

/-- `Number(x.toFixed(2))`, idealised as exact rounding to two decimal
places (JS rounds the underlying double; for the generator's magnitudes
the two agree up to the float grid). -/
def toFixed2 (x : ℚ) : ℚ := (round (x * 100) : ℤ) / 100

/-- `generateMockMarketData`.  The five `Math.random()` draws of each loop
iteration are supplied by `rand i k ∈ [0,1)` (`k = 0`: noise, `1`: volume,
`2`: high, `3`: low, `4`: open); the `date` string is not modelled. -/
def generateMockMarketData (days : ℕ) (rand : ℕ → ℕ → ℚ) : List MarketData :=
  (List.range days).map (fun (i : ℕ) =>
    let trend := ((i : ℚ) / (days : ℚ)) * 5000
    let noise := (rand i 0 - 1/2) * 2000
    let close := 50000 + trend + noise
    { date := ""
      close := toFixed2 close
      volume := ((⌊(800000 : ℚ) + rand i 1 * 1200000⌋ : ℤ) : ℚ)
      high := toFixed2 (close + rand i 2 * 500)
      low := toFixed2 (close - rand i 3 * 500)
      open_ := toFixed2 (close + (rand i 4 - 1/2) * 200) })

/-- Reference definition following the spec's words (§4.1): lastClose and
prevClose as in the source, SMA as the mean of the last `min 20 n` closes
(sum of the last `min 20 n` closes divided by `min 20 n`). -/
def technicalScoreSpec (marketData : List MarketData) : ℚ :=
  if marketData.length < 2 then 1/2
  else
    let latestClose := (marketData.getD (marketData.length - 1) dummyBar).close
    let previousClose := (marketData.getD (marketData.length - 2) dummyBar).close
    let priceChange := (latestClose - previousClose) / previousClose
    let k := min 20 marketData.length
    let sma := ((marketData.map (·.close)).drop (marketData.length - k)).sum / (k : ℚ)
    let trendScore : ℚ := if latestClose > sma then 3/5 else 2/5
    let momentumScore : ℚ := if priceChange > 0 then 3/5 else 2/5
    (trendScore + momentumScore) / 2

/-- Reference definition following the spec's words: the arithmetic mean of
the last `min k n` closes (divisor = number of closes actually averaged). -/
def smaSpec (k : ℕ) (marketData : List MarketData) : ℚ :=
  let m := min k marketData.length
  ((marketData.map (·.close)).drop (marketData.length - m)).sum / (m : ℚ)

/-- `calculateTechnicalScore` with the division by `previousClose` made
explicit: `none` marks the one place where a zero denominator would make
the JS arithmetic ill-defined (NaN/Infinity); the remaining divisor
`recentPrices.length` is nonzero whenever the guard `length < 2` fails. -/
def calculateTechnicalScoreChecked (marketData : List MarketData) : Option ℚ :=
  if marketData.length < 2 then some (1/2)
  else
    let latestClose := (marketData.getD (marketData.length - 1) dummyBar).close
    let previousClose := (marketData.getD (marketData.length - 2) dummyBar).close
    if previousClose = 0 then none
    else
      let priceChange := (latestClose - previousClose) / previousClose
      let recentPrices := (marketData.drop (marketData.length - 20)).map (·.close)
      let sma := recentPrices.sum / (recentPrices.length : ℚ)
      let trendScore : ℚ := if latestClose > sma then 3/5 else 2/5
      let momentumScore : ℚ := if priceChange > 0 then 3/5 else 2/5
      some ((trendScore + momentumScore) / 2)

/-- `calculateRSI` with the divisions made explicit: `none` when `period`
is zero (the source only ever calls it with `period = 14`); the division
by `avgLoss` is guarded by the source itself. -/
def calculateRSIChecked (prices : List ℚ) (period : ℕ) : Option ℚ :=
  if prices.length < period + 1 then some 50
  else if (period : ℚ) = 0 then none
  else
    let window := prices.drop (prices.length - (period + 1))
    let changes := (window.zip window.tail).map (fun p => p.2 - p.1)
    let gains := (changes.filter (fun c => 0 < c)).sum
    let losses := ((changes.filter (fun c => ¬ 0 < c)).map (fun c => -c)).sum
    let avgGain := gains / (period : ℚ)
    let avgLoss := losses / (period : ℚ)
    if avgLoss = 0 then some 100
    else
      let rs := avgGain / avgLoss
      some (100 - (100 / (1 + rs)))

/-- `calculateTechnicalIndicators` with the division by `sma50` made
explicit: `none` when `sma50 = 0`; the divisors `20` and
`Math.min(50, n)` are nonzero in the `n ≥ 14` branch, and the fallback
branch divides nowhere. -/
def calculateTechnicalIndicatorsChecked (marketData : List MarketData) :
    Option TechnicalIndicators :=
  if marketData.length < 14 then
    some
      { rsi := 50
        sma_20 := lastCloseOr50000 marketData
        sma_50 := lastCloseOr50000 marketData
        macd := 0
        volume_trend := "neutral" }
  else
    let closes := marketData.map (·.close)
    let volumes := marketData.map (·.volume)
    match calculateRSIChecked closes 14 with
    | none => none
    | some rsi =>
      let sma20 := (closes.drop (closes.length - 20)).sum / 20
      let sma50 := (closes.drop (closes.length - 50)).sum / ((min 50 closes.length : ℕ) : ℚ)
      if sma50 = 0 then none
      else
        let avgVolume := (volumes.drop (volumes.length - 20)).sum / 20
        let latestVolume := volumes.getD (volumes.length - 1) 0
        let volumeTrend := if latestVolume > avgVolume then "increasing" else "decreasing"
        some
          { rsi := rsi
            sma_20 := sma20
            sma_50 := sma50
            macd := (sma20 - sma50) / sma50 * 100
            volume_trend := volumeTrend }

/-- The variance inside `calculateVolatility` with its divisions made
explicit: `none` when some return's denominator `close[i-1]` is zero; the
divisor `returns.length` is nonzero whenever the guard `length < 2`
fails. -/
def calculateVolatilityVarianceChecked (marketData : List MarketData) : Option ℚ :=
  if marketData.length < 2 then some (1/2500)
  else if (marketData.zip marketData.tail).any (fun p => decide (p.1.close = 0)) then none
  else
    let returns := volatilityReturns marketData
    let mean := returns.sum / (returns.length : ℚ)
    some ((((returns.map (fun r => (r - mean) ^ 2)).sum)) / (returns.length : ℚ))

/-! ## Helper lemmas -/

/-- Characterisation of the action-selection `if` chain. -/
theorem selectAction_spec (c : ℚ) :
    (selectAction c = TradeAction.BUY ↔ c > 3/5) ∧
    (selectAction c = TradeAction.SELL ↔ c < 2/5) ∧
    (selectAction c = TradeAction.HOLD ↔ 2/5 ≤ c ∧ c ≤ 3/5) := by
  unfold selectAction
  split_ifs with h1 h2
  · refine ⟨by simp [h1], ?_, ?_⟩
    · simp only [reduceCtorEq, false_iff, not_lt]
      linarith
    · simp only [reduceCtorEq, false_iff, not_and, not_le]
      intro h
      linarith
  · norm_num at h2
    refine ⟨?_, by simp [h2], ?_⟩
    · simp only [reduceCtorEq, false_iff, not_lt]
      linarith
    · simp only [reduceCtorEq, false_iff, not_and, not_le]
      intro h
      linarith
  · norm_num at h2
    push_neg at h1
    refine ⟨?_, ?_, ?_⟩
    · simp only [reduceCtorEq, false_iff, not_lt]
      exact h1
    · simp only [reduceCtorEq, false_iff, not_lt]
      exact h2
    · simp only [true_iff]
      exact ⟨h2, h1⟩

/-- The summed positive changes of the RSI loop are nonnegative. -/
theorem gains_sum_nonneg (changes : List ℚ) :
    0 ≤ (changes.filter (fun c => 0 < c)).sum := by
  refine List.sum_nonneg (fun x hx => ?_)
  have h := (List.mem_filter.mp hx).2
  exact le_of_lt (of_decide_eq_true h)

/-- The summed negated nonpositive changes of the RSI loop are
nonnegative. -/
theorem losses_sum_nonneg (changes : List ℚ) :
    0 ≤ ((changes.filter (fun c => ¬ 0 < c)).map (fun c => -c)).sum := by
  refine List.sum_nonneg (fun x hx => ?_)
  obtain ⟨c, hc, rfl⟩ := List.mem_map.mp hx
  have h : ¬ 0 < c := of_decide_eq_true (List.mem_filter.mp hc).2
  simp only [neg_nonneg]
  exact le_of_not_lt h

/-- The final RSI formula stays within `[0, 100]` for nonnegative average
gain and loss. -/
theorem rsi_if_bounds (aG aL : ℚ) (hg : 0 ≤ aG) (hl : 0 ≤ aL) :
    0 ≤ (if aL = 0 then (100:ℚ) else 100 - (100 / (1 + aG / aL))) ∧
      (if aL = 0 then (100:ℚ) else 100 - (100 / (1 + aG / aL))) ≤ 100 := by
  split_ifs with h
  · norm_num
  · have hlpos : 0 < aL := lt_of_le_of_ne hl (Ne.symm h)
    have hrs : 0 ≤ aG / aL := div_nonneg hg hl
    have h1 : 0 < 100 / (1 + aG / aL) := by positivity
    have h2 : 100 / (1 + aG / aL) ≤ 100 := by
      apply div_le_self (by norm_num)
      linarith
    constructor <;> linarith

/-- Exact rounding downward bound for `toFixed2`. -/
theorem toFixed2_ge (x : ℚ) : x - 1/200 ≤ toFixed2 x := by
  unfold toFixed2
  have h := abs_sub_round (x * 100)
  rw [abs_le] at h
  have h1 : x * 100 - 1/2 ≤ (round (x * 100) : ℚ) := by linarith [h.1, h.2]
  linarith [div_le_div_of_nonneg_right (c := 100) h1 (by norm_num)]

/-- A guarded `getD` access lands in the list. -/
theorem getD_mem_of_lt {l : List MarketData} {n : ℕ} (h : n < l.length) (d : MarketData) :
    l.getD n d ∈ l := by
  rw [List.getD_eq_getElem?_getD, List.getElem?_eq_getElem h]
  exact List.getElem_mem h

/-- Every close produced by the mock generator is strictly positive
(the raw value is at least `49000`, and 2-decimal rounding moves it by at
most `1/200`). -/
theorem gen_close_pos :
    ∀ (days : ℕ) (rand : ℕ → ℕ → ℚ), (∀ i k, 0 ≤ rand i k ∧ rand i k < 1) →
      ∀ bar ∈ generateMockMarketData days rand, 0 < bar.close := by
  intro days rand hr bar hbar
  simp only [generateMockMarketData, List.mem_map, List.mem_range] at hbar
  obtain ⟨i, hi, rfl⟩ := hbar
  simp only
  have h1 : 0 ≤ (i : ℚ) / (days : ℚ) := div_nonneg (Nat.cast_nonneg i) (Nat.cast_nonneg days)
  have h2 := (hr i 0).1
  have h3 := toFixed2_ge (50000 + (i : ℚ) / (days : ℚ) * 5000 + (rand i 0 - 1/2) * 2000)
  nlinarith

/-- With a nonzero period (the source always passes 14), the checked RSI
agrees with the unchecked one: its only unguarded division is by
`period`. -/
theorem calculateRSIChecked_eq (prices : List ℚ) (period : ℕ) (hp : period ≠ 0) :
    calculateRSIChecked prices period = some (calculateRSI prices period) := by
  unfold calculateRSIChecked calculateRSI
  by_cases h1 : prices.length < period + 1
  · rw [if_pos h1, if_pos h1]
  · rw [if_neg h1, if_neg h1, if_neg (by exact_mod_cast hp)]
    simp only
    split_ifs <;> rfl

/-- On bars with positive closes, the technical-score division by
`previousClose` is well-defined. -/
theorem calculateTechnicalScoreChecked_eq (marketData : List MarketData)
    (hpos : ∀ b ∈ marketData, 0 < b.close) :
    calculateTechnicalScoreChecked marketData = some (calculateTechnicalScore marketData) := by
  unfold calculateTechnicalScoreChecked calculateTechnicalScore
  by_cases h1 : marketData.length < 2
  · rw [if_pos h1, if_pos h1]
  · rw [if_neg h1, if_neg h1]
    have hmem : marketData.getD (marketData.length - 2) dummyBar ∈ marketData :=
      getD_mem_of_lt (by omega) dummyBar
    rw [if_neg (ne_of_gt (hpos _ hmem))]

/-- On bars with positive closes, the indicator computation's division by
`sma50` is well-defined. -/
theorem calculateTechnicalIndicatorsChecked_eq (marketData : List MarketData)
    (hpos : ∀ b ∈ marketData, 0 < b.close) :
    calculateTechnicalIndicatorsChecked marketData =
      some (calculateTechnicalIndicators marketData) := by
  unfold calculateTechnicalIndicatorsChecked calculateTechnicalIndicators
  by_cases h1 : marketData.length < 14
  · rw [if_pos h1, if_pos h1]
  · rw [if_neg h1, if_neg h1]
    simp only
    rw [calculateRSIChecked_eq _ _ (by norm_num)]
    simp only
    have hsum : 0 < ((marketData.map (fun b => b.close)).drop
        ((marketData.map (fun b => b.close)).length - 50)).sum := by
      apply List.sum_pos
      · intro x hx
        have hx2 : x ∈ marketData.map (fun b => b.close) := List.drop_subset _ _ hx
        obtain ⟨b, hb, rfl⟩ := List.mem_map.mp hx2
        exact hpos b hb
      · have : ((marketData.map (fun b => b.close)).drop
            ((marketData.map (fun b => b.close)).length - 50)).length =
            (marketData.map (fun b => b.close)).length -
              ((marketData.map (fun b => b.close)).length - 50) := List.length_drop _ _
        intro hnil
        rw [hnil] at this
        simp only [List.length_nil, List.length_map] at this
        omega
    have hsma : (0:ℚ) < ((marketData.map (fun b => b.close)).drop
        ((marketData.map (fun b => b.close)).length - 50)).sum /
        ((min 50 (marketData.map (fun b => b.close)).length : ℕ) : ℚ) := by
      apply div_pos hsum
      have : 0 < min 50 (marketData.map (fun b => b.close)).length := by
        simp only [List.length_map]
        omega
      exact_mod_cast this
    rw [if_neg (ne_of_gt hsma)]

/-- On bars with positive closes, every per-bar return denominator of the
volatility computation is nonzero. -/
theorem calculateVolatilityVarianceChecked_eq (marketData : List MarketData)
    (hpos : ∀ b ∈ marketData, 0 < b.close) :
    calculateVolatilityVarianceChecked marketData =
      some (calculateVolatilityVariance marketData) := by
  unfold calculateVolatilityVarianceChecked calculateVolatilityVariance
  by_cases h1 : marketData.length < 2
  · rw [if_pos h1, if_pos h1]
  · rw [if_neg h1, if_neg h1]
    have hany : ¬ ((marketData.zip marketData.tail).any
        (fun p => decide (p.1.close = 0)) = true) := by
      simp only [List.any_eq_true, not_exists]
      rintro ⟨a, b⟩ ⟨hmem, hdec⟩
      have ha : a ∈ marketData := (List.of_mem_zip hmem).1
      have : a.close = 0 := of_decide_eq_true hdec
      exact absurd this (ne_of_gt (hpos a ha))
    rw [if_neg hany]

/-- The variance under `Math.sqrt` is never negative, so the square root
is always well-defined. -/
theorem variance_nonneg (marketData : List MarketData) :
    0 ≤ calculateVolatilityVariance marketData := by
  unfold calculateVolatilityVariance
  by_cases h1 : marketData.length < 2
  · rw [if_pos h1]
    norm_num
  · rw [if_neg h1]
    simp only
    apply div_nonneg
    · apply List.sum_nonneg
      intro x hx
      obtain ⟨r, hr, rfl⟩ := List.mem_map.mp hx
      positivity
    · positivity

/-- The trend/momentum score only takes the three values
`0.4`, `0.5`, `0.6`. -/
theorem tech_score_mem (marketData : List MarketData) :
    calculateTechnicalScore marketData = 2/5 ∨ calculateTechnicalScore marketData = 1/2 ∨
      calculateTechnicalScore marketData = 3/5 := by
  unfold calculateTechnicalScore
  simp only
  split_ifs <;> norm_num

/-- The sentiment score lies in `[0, 1]`. -/
theorem sentiment_bounds (newsData : List String) :
    0 ≤ analyzeSentiment newsData ∧ analyzeSentiment newsData ≤ 1 := by
  unfold analyzeSentiment
  by_cases h1 : newsData.length = 0
  · rw [if_pos h1]
    norm_num
  · rw [if_neg h1]
    simp only
    by_cases h2 : countMatches newsData positiveWords + countMatches newsData negativeWords = 0
    · rw [if_pos h2]
      norm_num
    · rw [if_neg h2]
      constructor
      · positivity
      · rw [div_le_one (by exact_mod_cast Nat.pos_of_ne_zero h2)]
        exact_mod_cast Nat.le_add_right _ _

/-! ## Claim theorems -/

/-- C1: for all technical and sentiment scores in `[0,1]`, with
`combined = technical*0.6 + sentiment*0.4` and fixed threshold `0.6`, the
synthesizer selects `BUY` iff `combined > 0.6`, `SELL` iff
`combined < 0.4`, and `HOLD` exactly on the remaining (closed) middle
band, so the three cases are exhaustive and mutually exclusive; moreover
the action emitted by `analyzeMarket` is exactly this selection. -/
theorem C1_action_selection (t s : ℚ) (ht0 : 0 ≤ t) (ht1 : t ≤ 1) (hs0 : 0 ≤ s) (hs1 : s ≤ 1) :
    (selectAction (combinedScore t s) = TradeAction.BUY ↔ combinedScore t s > 3/5) ∧
    (selectAction (combinedScore t s) = TradeAction.SELL ↔ combinedScore t s < 2/5) ∧
    (selectAction (combinedScore t s) = TradeAction.HOLD ↔
      2/5 ≤ combinedScore t s ∧ combinedScore t s ≤ 3/5) ∧
    (∀ strategy marketData newsData volatility randPrice,
      (analyzeMarket strategy marketData newsData volatility randPrice).action =
        selectAction (combinedScore (calculateTechnicalScore marketData)
          (analyzeSentiment newsData))) := by
  obtain ⟨hb, hs2, hh⟩ := selectAction_spec (combinedScore t s)
  exact ⟨hb, hs2, hh, fun _ _ _ _ _ => rfl⟩

/-- Witness for C1 at `t = s = 1/2` (combined `= 1/2`, a `HOLD`). -/
theorem C1_action_selection_witness :
    selectAction (combinedScore (1/2) (1/2)) = TradeAction.HOLD := by
  exact (C1_action_selection (1/2) (1/2) (by norm_num) (by norm_num) (by norm_num)
    (by norm_num)).2.2.1.mpr (by norm_num [combinedScore])

/-- C2: the technical score agrees everywhere with the spec's reference
definition (neutral `0.5` below two bars, otherwise the mean of trend and
momentum sub-scores with the SMA taken over the last `min 20 n` closes),
and on the two-bar sequence with closes `[100, 110]` it is exactly
`0.6`. -/
theorem C2_technical_score :
    (∀ marketData, calculateTechnicalScore marketData = technicalScoreSpec marketData) ∧
    calculateTechnicalScore
      [{ date := "", close := 100, volume := 0, high := 0, low := 0, open_ := 0 },
       { date := "", close := 110, volume := 0, high := 0, low := 0, open_ := 0 }] = 3/5 := by
  constructor
  · intro md
    unfold calculateTechnicalScore technicalScoreSpec
    rcases Nat.lt_or_ge md.length 2 with h | h
    · simp only [h, if_true]
    · have hn : ¬ md.length < 2 := by omega
      simp only [hn, if_false]
      have e1 : md.length - min 20 md.length = md.length - 20 := by omega
      rw [e1, ← List.map_drop]
      have e2 : ((md.drop (md.length - 20)).map (fun b => b.close)).length = min 20 md.length := by
        rw [List.length_map, List.length_drop]
        omega
      rw [e2]
  · norm_num [calculateTechnicalScore, List.getD]

/-- C3: the RSI always lies in `[0, 100]`; on fewer than 15 closes it is
exactly 50, and in particular the full indicator path at exactly 14 bars
still yields `rsi = 50`. -/
theorem C3_rsi_bounds :
    (∀ (prices : List ℚ) (period : ℕ),
      0 ≤ calculateRSI prices period ∧ calculateRSI prices period ≤ 100) ∧
    (∀ prices : List ℚ, prices.length < 15 → calculateRSI prices 14 = 50) ∧
    (∀ marketData : List MarketData, marketData.length = 14 →
      (calculateTechnicalIndicators marketData).rsi = 50) := by
  have hmain : ∀ (prices : List ℚ) (period : ℕ),
      0 ≤ calculateRSI prices period ∧ calculateRSI prices period ≤ 100 := by
    intro prices period
    by_cases h1 : prices.length < period + 1
    · rw [calculateRSI, if_pos h1]
      norm_num
    · rw [calculateRSI, if_neg h1]
      exact rsi_if_bounds _ _
        (div_nonneg (gains_sum_nonneg _) (by positivity))
        (div_nonneg (losses_sum_nonneg _) (by positivity))
  have h50 : ∀ prices : List ℚ, prices.length < 15 → calculateRSI prices 14 = 50 := by
    intro prices h
    rw [calculateRSI, if_pos (by omega)]
  refine ⟨hmain, h50, ?_⟩
  intro md hmd
  rw [calculateTechnicalIndicators, if_neg (by omega)]
  simp only
  exact h50 _ (by simp [hmd])

/-- Witness for C3 at a two-element price list and a 14-bar sequence. -/
theorem C3_rsi_bounds_witness :
    (0 ≤ calculateRSI [1, 2] 14 ∧ calculateRSI [1, 2] 14 ≤ 100) ∧
    calculateRSI [1, 2] 14 = 50 ∧
    (calculateTechnicalIndicators (List.replicate 14 dummyBar)).rsi = 50 :=
  ⟨C3_rsi_bounds.1 [1, 2] 14, C3_rsi_bounds.2.1 [1, 2] (by norm_num),
    C3_rsi_bounds.2.2 (List.replicate 14 dummyBar) (by simp)⟩

/-- C4: the sentiment score is `positiveCount / (positiveCount +
negativeCount)` over per-(snippet, word) substring hits on lower-cased
snippets, defaulting to `0.5` when the total is zero or the list is
empty; `["strong bullish rally"]` scores `1`. -/
theorem C4_sentiment_score :
    (∀ newsData : List String,
      analyzeSentiment newsData =
        if countMatches newsData positiveWords + countMatches newsData negativeWords = 0
            ∨ newsData = []
        then 1/2
        else (countMatches newsData positiveWords : ℚ) /
          ((countMatches newsData positiveWords + countMatches newsData negativeWords : ℕ) : ℚ)) ∧
    analyzeSentiment [] = 1/2 ∧
    analyzeSentiment ["strong bullish rally"] = 1 := by
  have hmain : ∀ newsData : List String,
      analyzeSentiment newsData =
        if countMatches newsData positiveWords + countMatches newsData negativeWords = 0
            ∨ newsData = []
        then 1/2
        else (countMatches newsData positiveWords : ℚ) /
          ((countMatches newsData positiveWords + countMatches newsData negativeWords : ℕ) : ℚ) := by
    intro news
    unfold analyzeSentiment
    rcases news with _ | ⟨n, ns⟩
    · simp [countMatches]
    · rw [if_neg (by simp)]
      by_cases h : countMatches (n :: ns) positiveWords + countMatches (n :: ns) negativeWords = 0
      · rw [if_pos h, if_pos (Or.inl h)]
      · rw [if_neg h, if_neg (by simp [h])]
  refine ⟨hmain, by rw [hmain]; simp [countMatches], ?_⟩
  rw [hmain]
  have hp : countMatches ["strong bullish rally"] positiveWords = 3 := by decide
  have hn : countMatches ["strong bullish rally"] negativeWords = 0 := by decide
  rw [hp, hn]
  norm_num

/-- C5: `price_target` is `lastClose * (1 + volatility*2)` for `BUY`,
`lastClose * (1 - volatility*2)` for `SELL`, `lastClose` for `HOLD`;
`stop_loss` is `lastClose * (1 ∓ stop_loss_percentage/100)` accordingly;
and on inputs realising combined `= 0.65` with `stop_loss_percentage = 2`
and `lastClose = 50000`, the signal is a `BUY` with confidence `0.3` and
stop-loss `49000`. -/
theorem C5_price_target_stop_loss :
    (∀ (strategy : Strategy) (marketData : List MarketData) (newsData : List String)
        (volatility randPrice : ℚ),
      ((analyzeMarket strategy marketData newsData volatility randPrice).action =
          TradeAction.BUY →
        (analyzeMarket strategy marketData newsData volatility randPrice).price_target =
          latestPrice marketData randPrice * (1 + volatility * 2) ∧
        (analyzeMarket strategy marketData newsData volatility randPrice).stop_loss =
          latestPrice marketData randPrice * (1 - strategy.stop_loss_percentage / 100)) ∧
      ((analyzeMarket strategy marketData newsData volatility randPrice).action =
          TradeAction.SELL →
        (analyzeMarket strategy marketData newsData volatility randPrice).price_target =
          latestPrice marketData randPrice * (1 - volatility * 2) ∧
        (analyzeMarket strategy marketData newsData volatility randPrice).stop_loss =
          latestPrice marketData randPrice * (1 + strategy.stop_loss_percentage / 100)) ∧
      ((analyzeMarket strategy marketData newsData volatility randPrice).action =
          TradeAction.HOLD →
        (analyzeMarket strategy marketData newsData volatility randPrice).price_target =
          latestPrice marketData randPrice ∧
        (analyzeMarket strategy marketData newsData volatility randPrice).stop_loss =
          latestPrice marketData randPrice)) ∧
    (∀ volatility randPrice : ℚ,
      (analyzeMarket ⟨["BTC/USDT"], "medium", 2⟩
        [{ date := "", close := 60000, volume := 0, high := 0, low := 0, open_ := 0 },
         { date := "", close := 40000, volume := 0, high := 0, low := 0, open_ := 0 },
         { date := "", close := 50000, volume := 0, high := 0, low := 0, open_ := 0 }]
        ["strong bullish growth positive gains rally surge", "weak"]
        volatility randPrice).action = TradeAction.BUY ∧
      (analyzeMarket ⟨["BTC/USDT"], "medium", 2⟩
        [{ date := "", close := 60000, volume := 0, high := 0, low := 0, open_ := 0 },
         { date := "", close := 40000, volume := 0, high := 0, low := 0, open_ := 0 },
         { date := "", close := 50000, volume := 0, high := 0, low := 0, open_ := 0 }]
        ["strong bullish growth positive gains rally surge", "weak"]
        volatility randPrice).confidence = 3/10 ∧
      (analyzeMarket ⟨["BTC/USDT"], "medium", 2⟩
        [{ date := "", close := 60000, volume := 0, high := 0, low := 0, open_ := 0 },
         { date := "", close := 40000, volume := 0, high := 0, low := 0, open_ := 0 },
         { date := "", close := 50000, volume := 0, high := 0, low := 0, open_ := 0 }]
        ["strong bullish growth positive gains rally surge", "weak"]
        volatility randPrice).stop_loss = 49000) := by
  constructor
  · intro strategy md news vol rp
    rcases hact : selectAction (combinedScore (calculateTechnicalScore md)
        (analyzeSentiment news)) with _ | _ | _ <;>
      refine ⟨?_, ?_, ?_⟩ <;> intro h <;> simp_all [analyzeMarket]
  · intro vol rp
    have htech : calculateTechnicalScore
        [{ date := "", close := 60000, volume := 0, high := 0, low := 0, open_ := 0 },
         { date := "", close := 40000, volume := 0, high := 0, low := 0, open_ := 0 },
         { date := "", close := 50000, volume := 0, high := 0, low := 0, open_ := 0 }] = 1/2 := by
      norm_num [calculateTechnicalScore, List.getD]
    have hp : countMatches ["strong bullish growth positive gains rally surge", "weak"]
        positiveWords = 7 := by decide
    have hn : countMatches ["strong bullish growth positive gains rally surge", "weak"]
        negativeWords = 1 := by decide
    have hsent : analyzeSentiment ["strong bullish growth positive gains rally surge", "weak"]
        = 7/8 := by
      simp only [analyzeSentiment, hp, hn]
      norm_num
    have hcomb : combinedScore (1/2 : ℚ) (7/8) = 13/20 := by norm_num [combinedScore]
    have hact : selectAction (13/20 : ℚ) = TradeAction.BUY := by
      rw [selectAction, if_pos (by norm_num)]
    refine ⟨?_, ?_, ?_⟩ <;>
      simp only [analyzeMarket, htech, hsent, hcomb, hact, latestPrice, List.getD] <;>
      norm_num [min_def, abs_of_nonneg]

/-- Witness for C5: the `BUY` implication applied at the scenario inputs
with volatility `1/100`. -/
theorem C5_price_target_stop_loss_witness :
    (analyzeMarket ⟨["BTC/USDT"], "medium", 2⟩
      [{ date := "", close := 60000, volume := 0, high := 0, low := 0, open_ := 0 },
       { date := "", close := 40000, volume := 0, high := 0, low := 0, open_ := 0 },
       { date := "", close := 50000, volume := 0, high := 0, low := 0, open_ := 0 }]
      ["strong bullish growth positive gains rally surge", "weak"] (1/100) 0).price_target =
      latestPrice
        [{ date := "", close := 60000, volume := 0, high := 0, low := 0, open_ := 0 },
         { date := "", close := 40000, volume := 0, high := 0, low := 0, open_ := 0 },
         { date := "", close := 50000, volume := 0, high := 0, low := 0, open_ := 0 }] 0 *
        (1 + (1/100) * 2) :=
  ((C5_price_target_stop_loss.1 ⟨["BTC/USDT"], "medium", 2⟩
    [{ date := "", close := 60000, volume := 0, high := 0, low := 0, open_ := 0 },
     { date := "", close := 40000, volume := 0, high := 0, low := 0, open_ := 0 },
     { date := "", close := 50000, volume := 0, high := 0, low := 0, open_ := 0 }]
    ["strong bullish growth positive gains rally surge", "weak"] (1/100) 0).1
    ((C5_price_target_stop_loss.2 (1/100) 0).1)).1

/-- C6 counterexample: at 14 bars of constant close `100`, the code's
`sma_20` is `1400 / 20 = 70`, not the mean `100` of the last
`min 20 n = 14` closes — `sma20` divides by the constant `20`. -/
theorem C6_sma_counterexample :
    (calculateTechnicalIndicators (List.replicate 14
      { date := "", close := 100, volume := 0, high := 0, low := 0, open_ := 0 })).sma_20 ≠
    smaSpec 20 (List.replicate 14
      { date := "", close := 100, volume := 0, high := 0, low := 0, open_ := 0 }) := by
  rw [calculateTechnicalIndicators, if_neg (by simp)]
  simp only [smaSpec, List.map_replicate, List.length_replicate, List.length_map]
  norm_num [List.sum_replicate]

/-- C6 amended: for `n ≥ 14` bars, `sma_20` is the sum of the last
`min 20 n` closes divided by the constant `20` (hence the true mean only
when `n ≥ 20`), `sma_50` is the mean of the last `min 50 n` closes, and
`macd = (sma_20 - sma_50) / sma_50 * 100`. -/
theorem C6_sma_amended :
    ∀ marketData : List MarketData, 14 ≤ marketData.length →
      ((calculateTechnicalIndicators marketData).sma_20 =
        ((marketData.map (fun b => b.close)).drop (marketData.length - 20)).sum / 20) ∧
      ((calculateTechnicalIndicators marketData).sma_50 = smaSpec 50 marketData) ∧
      ((calculateTechnicalIndicators marketData).macd =
        ((calculateTechnicalIndicators marketData).sma_20 -
          (calculateTechnicalIndicators marketData).sma_50) /
          (calculateTechnicalIndicators marketData).sma_50 * 100) ∧
      (20 ≤ marketData.length →
        (calculateTechnicalIndicators marketData).sma_20 = smaSpec 20 marketData) := by
  intro md h14
  rw [calculateTechnicalIndicators, if_neg (by omega)]
  refine ⟨by simp, ?_, by simp, ?_⟩
  · unfold smaSpec
    simp only [List.length_map]
    have e1 : md.length - 50 = md.length - min 50 md.length := by omega
    rw [e1]
  · intro h20
    unfold smaSpec
    simp only [List.length_map]
    have e1 : md.length - 20 = md.length - min 20 md.length := by omega
    rw [e1]
    have e2 : min 20 md.length = 20 := by omega
    rw [e2]
    norm_num

/-- Witness for C6 amended at 20 constant bars (where `sma_20` is a true
mean). -/
theorem C6_sma_amended_witness :
    (calculateTechnicalIndicators (List.replicate 20
      { date := "", close := 100, volume := 0, high := 0, low := 0, open_ := 0 })).sma_20 =
    smaSpec 20 (List.replicate 20
      { date := "", close := 100, volume := 0, high := 0, low := 0, open_ := 0 }) :=
  (C6_sma_amended (List.replicate 20
      { date := "", close := 100, volume := 0, high := 0, low := 0, open_ := 0 })
    (by simp)).2.2.2 (by simp)

/-- C7 counterexample: below 14 bars (here the empty sequence) the
indicator set's `volume_trend` is the third value `"neutral"`, so it is
not always one of `"increasing"`/`"decreasing"`. -/
theorem C7_volume_trend_counterexample :
    ¬ ((calculateTechnicalIndicators []).volume_trend = "increasing" ∨
       (calculateTechnicalIndicators []).volume_trend = "decreasing") := by
  rw [calculateTechnicalIndicators, if_pos (by simp)]
  simp

/-- C7 amended: `volume_trend` is `"neutral"` below 14 bars; from 14 bars
on, it is `"increasing"` exactly when the latest volume strictly exceeds
the sum of the last `min 20 n` volumes divided by the constant `20`, and
`"decreasing"` otherwise. -/
theorem C7_volume_trend_amended :
    ∀ marketData : List MarketData,
      (marketData.length < 14 →
        (calculateTechnicalIndicators marketData).volume_trend = "neutral") ∧
      (14 ≤ marketData.length →
        (((calculateTechnicalIndicators marketData).volume_trend = "increasing" ↔
          (marketData.map (fun b => b.volume)).getD (marketData.length - 1) 0 >
            ((marketData.map (fun b => b.volume)).drop (marketData.length - 20)).sum / 20) ∧
        ((calculateTechnicalIndicators marketData).volume_trend = "decreasing" ↔
          ¬ (marketData.map (fun b => b.volume)).getD (marketData.length - 1) 0 >
            ((marketData.map (fun b => b.volume)).drop (marketData.length - 20)).sum / 20))) := by
  intro md
  constructor
  · intro h
    rw [calculateTechnicalIndicators, if_pos h]
  · intro h14
    rw [calculateTechnicalIndicators, if_neg (by omega)]
    simp only [List.length_map]
    by_cases hv : (md.map (fun b => b.volume)).getD (md.length - 1) 0 >
        ((md.map (fun b => b.volume)).drop (md.length - 20)).sum / 20
    · rw [if_pos hv]
      refine ⟨⟨fun _ => hv, fun _ => rfl⟩, ⟨fun h => absurd h (by decide), fun h => absurd hv h⟩⟩
    · rw [if_neg hv]
      refine ⟨⟨fun h => absurd h (by decide), fun h => absurd h hv⟩, ⟨fun _ => hv, fun _ => rfl⟩⟩

/-- Witness for C7 amended: the empty sequence is `"neutral"`; 14
zero-volume bars give `"decreasing"`. -/
theorem C7_volume_trend_amended_witness :
    (calculateTechnicalIndicators []).volume_trend = "neutral" ∧
    (calculateTechnicalIndicators (List.replicate 14 dummyBar)).volume_trend = "decreasing" :=
  ⟨(C7_volume_trend_amended []).1 (by simp),
   ((C7_volume_trend_amended (List.replicate 14 dummyBar)).2 (by simp)).2.mpr
     (by norm_num [List.map_replicate, List.length_replicate, List.sum_replicate, dummyBar])⟩

/-- C8 counterexample: a single bar with close `0` has latest close `0`,
yet the fallback sets `sma_20 = 50000` (JS `?.close || 50000` treats the
falsy close `0` like a missing value), so the fallback moving averages do
not always equal the latest close. -/
theorem C8_fallback_counterexample :
    (calculateTechnicalIndicators
      [{ date := "", close := 0, volume := 0, high := 0, low := 0, open_ := 0 }]).sma_20 ≠
    ({ date := "", close := 0, volume := 0, high := 0, low := 0, open_ := 0 } : MarketData).close := by
  rw [calculateTechnicalIndicators, if_pos (by simp)]
  simp [lastCloseOr50000]

/-- C8 amended: below 14 bars the fallback indicator set is
`rsi = 50`, `macd = 0`, `volume_trend = "neutral"`, and both moving
averages equal the latest close whenever a last bar exists and its close
is nonzero (and `50000` for the empty sequence or a zero last close). -/
theorem C8_fallback_amended :
    (∀ marketData : List MarketData, marketData.length < 14 →
      calculateTechnicalIndicators marketData =
        { rsi := 50, sma_20 := lastCloseOr50000 marketData,
          sma_50 := lastCloseOr50000 marketData, macd := 0, volume_trend := "neutral" }) ∧
    (∀ (marketData : List MarketData) (bar : MarketData), marketData.length < 14 →
      marketData.getLast? = some bar → bar.close ≠ 0 →
      (calculateTechnicalIndicators marketData).rsi = 50 ∧
      (calculateTechnicalIndicators marketData).sma_20 = bar.close ∧
      (calculateTechnicalIndicators marketData).sma_50 = bar.close ∧
      (calculateTechnicalIndicators marketData).macd = 0) ∧
    calculateTechnicalIndicators [] =
      { rsi := 50, sma_20 := 50000, sma_50 := 50000, macd := 0, volume_trend := "neutral" } := by
  have h1 : ∀ marketData : List MarketData, marketData.length < 14 →
      calculateTechnicalIndicators marketData =
        { rsi := 50, sma_20 := lastCloseOr50000 marketData,
          sma_50 := lastCloseOr50000 marketData, macd := 0, volume_trend := "neutral" } := by
    intro md h
    rw [calculateTechnicalIndicators, if_pos h]
  refine ⟨h1, ?_, ?_⟩
  · intro md bar hlen hlast hcl
    have hv : lastCloseOr50000 md = bar.close := by
      rw [lastCloseOr50000, hlast]
      simp [hcl]
    rw [h1 md hlen]
    simp [hv]
  · rw [h1 [] (by simp)]
    simp [lastCloseOr50000]

/-- Witness for C8 amended: a single bar with close `100` yields
`sma_20 = 100`. -/
theorem C8_fallback_amended_witness :
    (calculateTechnicalIndicators
      [{ date := "", close := 100, volume := 0, high := 0, low := 0, open_ := 0 }]).sma_20 =
    ({ date := "", close := 100, volume := 0, high := 0, low := 0, open_ := 0 } : MarketData).close :=
  (C8_fallback_amended.2.1
    [{ date := "", close := 100, volume := 0, high := 0, low := 0, open_ := 0 }]
    { date := "", close := 100, volume := 0, high := 0, low := 0, open_ := 0 }
    (by simp) rfl (by norm_num)).2.1

/-- C9: the analysis never errors: every close the mock generator
produces is strictly positive for any day count and any realisation of
the `[0,1)` randomness, so the divisions of the technical score, the
indicator set and the volatility returns are all well-defined on
generator output (checked variants return `some`); the RSI's divisions
are well-defined on every input, and the variance under `Math.sqrt` is
never negative. -/
theorem C9_no_errors :
    ∀ (days : ℕ) (rand : ℕ → ℕ → ℚ),
      (∀ i k, 0 ≤ rand i k ∧ rand i k < 1) →
      (∀ bar ∈ generateMockMarketData days rand, 0 < bar.close) ∧
      calculateTechnicalScoreChecked (generateMockMarketData days rand) =
        some (calculateTechnicalScore (generateMockMarketData days rand)) ∧
      calculateTechnicalIndicatorsChecked (generateMockMarketData days rand) =
        some (calculateTechnicalIndicators (generateMockMarketData days rand)) ∧
      calculateVolatilityVarianceChecked (generateMockMarketData days rand) =
        some (calculateVolatilityVariance (generateMockMarketData days rand)) ∧
      (∀ prices : List ℚ, calculateRSIChecked prices 14 = some (calculateRSI prices 14)) ∧
      (∀ marketData : List MarketData, 0 ≤ calculateVolatilityVariance marketData) := by
  intro days rand hr
  have hpos := gen_close_pos days rand hr
  exact ⟨hpos, calculateTechnicalScoreChecked_eq _ hpos,
    calculateTechnicalIndicatorsChecked_eq _ hpos,
    calculateVolatilityVarianceChecked_eq _ hpos,
    fun prices => calculateRSIChecked_eq prices 14 (by norm_num),
    variance_nonneg⟩

/-- Witness for C9 at one generated day with the zero randomness
stream. -/
theorem C9_no_errors_witness :
    calculateTechnicalScoreChecked (generateMockMarketData 1 (fun _ _ => 0)) =
      some (calculateTechnicalScore (generateMockMarketData 1 (fun _ _ => 0))) :=
  (C9_no_errors 1 (fun _ _ => 0)
    (fun _ _ => ⟨le_refl 0, by norm_num⟩)).2.1

/-- C10: the emitted confidence always equals `|combined - 0.5| * 2` (the
`0.95` cap never binds) and lies in `[0, 0.52]`, because the technical
score only takes the values `0.4`, `0.5`, `0.6` and the sentiment score
lies in `[0, 1]`, forcing the combined score into `[0.24, 0.76]`. -/
theorem C10_confidence_bound :
    ∀ (strategy : Strategy) (marketData : List MarketData) (newsData : List String)
      (volatility randPrice : ℚ),
      (calculateTechnicalScore marketData = 2/5 ∨ calculateTechnicalScore marketData = 1/2 ∨
        calculateTechnicalScore marketData = 3/5) ∧
      (0 ≤ analyzeSentiment newsData ∧ analyzeSentiment newsData ≤ 1) ∧
      6/25 ≤ combinedScore (calculateTechnicalScore marketData) (analyzeSentiment newsData) ∧
      combinedScore (calculateTechnicalScore marketData) (analyzeSentiment newsData) ≤ 19/25 ∧
      (analyzeMarket strategy marketData newsData volatility randPrice).confidence =
        |combinedScore (calculateTechnicalScore marketData) (analyzeSentiment newsData) - 1/2|
          * 2 ∧
      0 ≤ (analyzeMarket strategy marketData newsData volatility randPrice).confidence ∧
      (analyzeMarket strategy marketData newsData volatility randPrice).confidence ≤ 13/25 := by
  intro strategy md news vol rp
  have ht := tech_score_mem md
  have hs := sentiment_bounds news
  have hcl : 6/25 ≤ combinedScore (calculateTechnicalScore md) (analyzeSentiment news) := by
    unfold combinedScore
    rcases ht with h | h | h <;> rw [h] <;> linarith [hs.1, hs.2]
  have hcu : combinedScore (calculateTechnicalScore md) (analyzeSentiment news) ≤ 19/25 := by
    unfold combinedScore
    rcases ht with h | h | h <;> rw [h] <;> linarith [hs.1, hs.2]
  have habs : |combinedScore (calculateTechnicalScore md) (analyzeSentiment news) - 1/2|
      ≤ 13/50 := abs_le.mpr ⟨by linarith, by linarith⟩
  have hconf : (analyzeMarket strategy md news vol rp).confidence =
      min (19/20) (|combinedScore (calculateTechnicalScore md) (analyzeSentiment news) - 1/2|
        * 2) := rfl
  have hmin : min ((19:ℚ)/20)
      (|combinedScore (calculateTechnicalScore md) (analyzeSentiment news) - 1/2| * 2) =
      |combinedScore (calculateTechnicalScore md) (analyzeSentiment news) - 1/2| * 2 :=
    min_eq_right (by linarith)
  refine ⟨ht, hs, hcl, hcu, by rw [hconf, hmin], ?_, ?_⟩
  · rw [hconf, hmin]
    positivity
  · rw [hconf, hmin]
    linarith
